import Mathlib

/-!
Verification of the `api-wrapper` response-envelope library.

The source (`src/index.ts`, `src/types.ts`) defines a `ResponseWrapper`
class with two pure envelope builders (`success`, `error`), a mutable
configuration (`configure`, `getConfig`), and two framework adapters
(Express middleware, Fastify decorator).  We give a shallow embedding:
JavaScript runtime values are modelled by `Value`, optional arguments by
`Option`, the configuration object by a record, and the builders as pure
functions from the configuration and the arguments to an envelope record.
Object identity (needed for the "getConfig returns a copy" claim) is
modelled by a small reference store.
-/

namespace ApiWrapper

/-- A JavaScript runtime value, as far as this library inspects one:
`null`, booleans, numbers (the library only meets integer codes),
strings, arrays and plain objects. -/
inductive Value : Type where
  | vNull : Value
  | vBool : Bool → Value
  | vNum : Int → Value
  | vStr : String → Value
  | vArr : List Value → Value
  | vObj : List (String × Value) → Value

/-- JavaScript truthiness of a `Value`: `null`, `false`, `0` and `""`
are falsy; every array or object is truthy. -/
def Value.truthy : Value → Bool
  | .vNull => false
  | .vBool b => b
  | .vNum n => n != 0
  | .vStr s => s != ""
  | .vArr _ => true
  | .vObj _ => true

/-- Truthiness of an optional value; an absent (`undefined`) argument is
falsy. -/
def truthyOpt : Option Value → Bool
  | none => false
  | some v => v.truthy

/-- `m || d` for an optional string `m`: JavaScript `||` takes the second
operand when the first is `undefined` or the empty string. -/
def jsOrStr : Option String → String → String
  | none, d => d
  | some s, d => if s = "" then d else s

/-- The stored configuration (`ResponseConfig` in `types.ts`); the
constructor always fills every field, so the stored fields are total. -/
structure ResponseConfig : Type where
  defaultSuccessMessage : String
  defaultErrorMessage : String
  includeErrorDetails : Bool
deriving DecidableEq, Repr

/-- A partial configuration, as accepted by the constructor and by
`configure`: each field is either absent or supplies a new value. -/
structure ConfigUpdate : Type where
  defaultSuccessMessage : Option String
  defaultErrorMessage : Option String
  includeErrorDetails : Option Bool
deriving DecidableEq, Repr

/-- The `error` field of an error envelope: `{ code, details? }`. -/
structure ErrorInfo : Type where
  code : Int
  details : Option Value

/-- The runtime shape of an envelope built by the library.  The TS types
`SuccessResponse` / `ErrorResponse` mark `error` resp. `data` as `never`,
so at runtime each envelope carries a `success` flag, a `message`, and at
most one of `data` / `error`; we model both optional fields and prove the
discriminated-union invariant rather than bake it in. -/
structure ApiEnvelope (T : Type) : Type where
  success : Bool
  message : String
  data : Option T
  error : Option ErrorInfo

/-- The constructor `new ResponseWrapper(config)`: spread of the three
hard-coded defaults overridden by the fields present in `config`. -/
def mkWrapperConfig (config : ConfigUpdate) : ResponseConfig where
  defaultSuccessMessage :=
    config.defaultSuccessMessage.getD "Operation completed successfully"
  defaultErrorMessage := config.defaultErrorMessage.getD "An error occurred"
  includeErrorDetails := config.includeErrorDetails.getD false

/-- The empty partial configuration (`{}`). -/
def emptyUpdate : ConfigUpdate := ⟨none, none, none⟩

/-- The configuration of the default instance `new ResponseWrapper()`. -/
def initialConfig : ResponseConfig := mkWrapperConfig emptyUpdate

/-- `success(data, message?)` from `index.ts`: message is
`message || this.config.defaultSuccessMessage`. -/
def success {T : Type} (cfg : ResponseConfig) (data : T)
    (message : Option String) : ApiEnvelope T where
  success := true
  message := jsOrStr message cfg.defaultSuccessMessage
  data := some data
  error := none

/-- `error(message?, code = 500, details?)` from `index.ts`: message is
`message || this.config.defaultErrorMessage`; the `details` field is
assigned only when `this.config.includeErrorDetails && details`. -/
def error {T : Type} (cfg : ResponseConfig) (message : Option String)
    (code : Int) (details : Option Value) : ApiEnvelope T where
  success := false
  message := jsOrStr message cfg.defaultErrorMessage
  data := none
  error := some
    { code := code
      details :=
        if cfg.includeErrorDetails && truthyOpt details then details
        else none }

/-- `configure(newConfig)`: `this.config = { ...this.config, ...newConfig }`,
so each field present in the update wins and each absent field keeps the
stored value. -/
def configure (cfg : ResponseConfig) (newConfig : ConfigUpdate) :
    ResponseConfig where
  defaultSuccessMessage :=
    newConfig.defaultSuccessMessage.getD cfg.defaultSuccessMessage
  defaultErrorMessage :=
    newConfig.defaultErrorMessage.getD cfg.defaultErrorMessage
  includeErrorDetails :=
    newConfig.includeErrorDetails.getD cfg.includeErrorDetails

/-- `getConfig()` at the value level: the spread `{ ...this.config }`
copies every field, so the returned value equals the stored one.  Object
identity (the returned object being a fresh one) is modelled separately
by `getConfigRef`. -/
def getConfig (cfg : ResponseConfig) : ResponseConfig := cfg

/-! ### Object-identity model

JavaScript objects have identity: `getConfig` returns `{ ...this.config }`,
a freshly allocated object whose fields are copied from the stored one.
To state that mutating the returned object does not affect the stored
configuration, we model a store of configuration objects addressed by
references (natural numbers), with an allocation counter. -/

/-- A store of configuration objects.  `mem r` is the object at
reference `r` (if allocated); `next` is the next fresh reference. -/
structure ConfigStore : Type where
  mem : Nat → Option ResponseConfig
  next : Nat

/-- Read the object a reference points to. -/
def readRef (st : ConfigStore) (r : Nat) : Option ResponseConfig :=
  st.mem r

/-- Mutate the object a reference points to (a client writing a field of
an object it was handed). -/
def writeRef (st : ConfigStore) (r : Nat) (c : ResponseConfig) :
    ConfigStore where
  mem := fun i => if i = r then some c else st.mem i
  next := st.next

/-- A wrapper instance in the store model: the store plus the reference
held in the private `config` field. -/
structure WrapperHeap : Type where
  store : ConfigStore
  configRef : Nat

/-- `getConfig()` in the store model: read the stored object, allocate a
fresh object with the same fields (the spread copy), and return its
reference.  (A dangling `configRef` cannot arise from the class; the
`getD` default is unreachable under the validity hypothesis.) -/
def getConfigRef (s : WrapperHeap) : WrapperHeap × Nat :=
  let c := (readRef s.store s.configRef).getD initialConfig
  let r := s.store.next
  (⟨⟨fun i => if i = r then some c else s.store.mem i, r + 1⟩,
    s.configRef⟩, r)

/-! ### Framework adapters

The Express middleware attaches `res.apiError = (message?, code = 500,
details?) => res.status(code).json(this.error(message, code, details))`;
the Fastify decorator attaches `apiError` as
`this.code(code).send(this.responseWrapper.error(message, code, details))`.
We record the observable effect on the per-request response object: the
status code set and the body sent. -/

/-- An Express response object, reduced to the effects `apiError`
performs on it: the status set by `res.status` and the JSON body sent by
`res.json`. -/
structure ExpressRes : Type where
  statusCode : Option Int
  jsonBody : Option (ApiEnvelope Value)

/-- `res.apiError(message, code, details)` from the Express middleware:
`res.status(code).json(this.error(message, code, details))`. -/
def expressApiError (cfg : ResponseConfig) (res : ExpressRes)
    (message : Option String) (code : Int) (details : Option Value) :
    ExpressRes :=
  { res with
    statusCode := some code
    jsonBody := some (error cfg message code details) }

/-- `res.apiSuccess(data, message)` from the Express middleware:
`res.json(this.success(data, message))`; it does not touch the status. -/
def expressApiSuccess (cfg : ResponseConfig) (res : ExpressRes)
    (data : Value) (message : Option String) : ExpressRes where
  statusCode := res.statusCode
  jsonBody := some (success cfg data message)

/-- A Fastify reply object, reduced to the effects `apiError` performs
on it: the status set by `reply.code` and the body passed to
`reply.send`. -/
structure FastifyReply : Type where
  replyCode : Option Int
  sentBody : Option (ApiEnvelope Value)

/-- `reply.apiError(message, code, details)` from the Fastify decorator:
`this.code(code).send(this.responseWrapper.error(message, code, details))`. -/
def fastifyApiError (cfg : ResponseConfig) (rep : FastifyReply)
    (message : Option String) (code : Int) (details : Option Value) :
    FastifyReply :=
  { rep with
    replyCode := some code
    sentBody := some (error cfg message code details) }

/-- `reply.apiSuccess(data, message)` from the Fastify decorator:
`this.send(this.responseWrapper.success(data, message))`. -/
def fastifyApiSuccess (cfg : ResponseConfig) (rep : FastifyReply)
    (data : Value) (message : Option String) : FastifyReply where
  replyCode := rep.replyCode
  sentBody := some (success cfg data message)

/-! ## Theorems -/

/-- C1 (counterexample): the claim says the `message` field equals the
supplied `m` even when `m` is the empty string; but on the default
configuration `success(null, "")` has message
`"Operation completed successfully"`, not `""`. -/
theorem success_empty_message_not_kept :
    (success initialConfig Value.vNull (some "")).message ≠ "" := by
  decide

/-- C1 (amended): for every data value `d` and every non-empty message
`m`, `success(d, m)` returns exactly
`{success: true, message: m, data: d}` (no `error` field); a supplied
empty-string message instead falls back to the configured default. -/
theorem success_builds_exact_envelope {T : Type} (cfg : ResponseConfig)
    (d : T) (m : String) (hm : m ≠ "") :
    success cfg d (some m) =
      { success := true, message := m, data := some d, error := none } := by
  simp [success, jsOrStr, hm]

/-- Witness for `success_builds_exact_envelope` at `d = 7`, `m = "ok"`. -/
theorem success_builds_exact_envelope_witness :
    success initialConfig (7 : Int) (some "ok") =
      { success := true, message := "ok", data := some (7 : Int),
        error := none } :=
  success_builds_exact_envelope initialConfig 7 "ok" (by decide)

/-- C4: omitting the message, `success(d)` carries the configuration's
`defaultSuccessMessage` as it is at the time of the call. -/
theorem success_default_message {T : Type} (cfg : ResponseConfig) (d : T) :
    (success cfg d none).message = cfg.defaultSuccessMessage := rfl

/-- C9: a supplied empty-string message is falsy under JavaScript `||`,
so both builders fall back to the configured default on `""` exactly as
on an omitted message. -/
theorem empty_message_falls_back {T : Type} (cfg : ResponseConfig) (d : T)
    (code : Int) (details : Option Value) :
    (success cfg d (some "")).message = cfg.defaultSuccessMessage ∧
      (error (T := T) cfg (some "") code details).message =
        cfg.defaultErrorMessage := by
  constructor <;> simp [success, error, jsOrStr]

/-- C3: every envelope either builder returns is a discriminated union:
`success` yields flag `true` with a `data` field and no `error` field;
`error` yields flag `false` with an `error` field and no `data` field. -/
theorem envelopes_discriminated {T : Type} (cfg : ResponseConfig) (d : T)
    (m m' : Option String) (code : Int) (details : Option Value) :
    ((success cfg d m).success = true ∧
      (success cfg d m).data = some d ∧ (success cfg d m).error = none) ∧
    ((error (T := T) cfg m' code details).success = false ∧
      (error (T := T) cfg m' code details).data = none ∧
      (error (T := T) cfg m' code details).error ≠ none) := by
  refine ⟨⟨rfl, rfl, rfl⟩, rfl, rfl, ?_⟩
  simp [error]

/-- The default configuration with error details switched on, as a user
obtains it through `configure`. -/
def detailsOnConfig : ResponseConfig :=
  configure initialConfig ⟨none, none, some true⟩

/-- The object `{a: 1}` used by the spec's worked example. -/
def objA1 : Value := Value.vObj [("a", Value.vNum 1)]

/-- C2 (counterexample): the claim makes `details` present whenever it
was supplied and `includeErrorDetails` is true; but the code tests the
value's truthiness, so the supplied falsy value `0` is dropped:
`error("x", 404, 0)` with `includeErrorDetails = true` carries no
`details` field. -/
theorem error_supplied_falsy_details_dropped :
    detailsOnConfig.includeErrorDetails = true ∧
      ((error (T := Value) detailsOnConfig (some "x") 404
          (some (Value.vNum 0))).error.map ErrorInfo.details) =
        some none :=
  ⟨rfl, rfl⟩

/-- C2 (amended): the `details` field is present iff the configuration's
`includeErrorDetails` is true and the supplied details value is truthy;
in particular `error("x", 404, {a:1})` with details on yields
`{success:false, message:"x", error:{code:404, details:{a:1}}}`, and
with the default (details off) configuration the same envelope without
`details`. -/
theorem error_details_truthy_and_configured {T : Type}
    (cfg : ResponseConfig) (m : Option String) (code : Int)
    (details : Option Value) :
    ((error (T := T) cfg m code details).error.map ErrorInfo.details =
      some (if cfg.includeErrorDetails && truthyOpt details then details
        else none)) ∧
    (error (T := Value) detailsOnConfig (some "x") 404 (some objA1) =
      { success := false, message := "x", data := none,
        error := some { code := 404, details := some objA1 } }) ∧
    (error (T := Value) initialConfig (some "x") 404 (some objA1) =
      { success := false, message := "x", data := none,
        error := some { code := 404, details := none } }) :=
  ⟨rfl, rfl, rfl⟩

/-- C5: in any state, after `configure({defaultErrorMessage: "Y"})`, a
call `error()` with no arguments (message and details `undefined`, code
defaulting to `500`) has message `"Y"`. -/
theorem configure_then_error_message (cfg : ResponseConfig) :
    (error (T := Value) (configure cfg ⟨none, some "Y", none⟩)
      none 500 none).message = "Y" := rfl

/-- C7: the builders are total: every combination of configuration,
data, message, code and details is mapped to an envelope; no input is
rejected and construction cannot fail. -/
theorem builders_total {T : Type} (cfg : ResponseConfig) (d : T)
    (m m' : Option String) (code : Int) (details : Option Value) :
    (∃ e : ApiEnvelope T, success cfg d m = e) ∧
      ∃ e : ApiEnvelope T, error (T := T) cfg m' code details = e :=
  ⟨⟨_, rfl⟩, ⟨_, rfl⟩⟩

/-- C8: both adapters' `apiError` send exactly the builder's envelope
and set the framework status (`res.status(code)` / `reply.code(code)`)
to the same `code` that the envelope carries in `error.code`. -/
theorem adapters_send_builder_envelope (cfg : ResponseConfig)
    (res : ExpressRes) (rep : FastifyReply) (m : Option String)
    (code : Int) (details : Option Value) :
    (expressApiError cfg res m code details).statusCode = some code ∧
    (expressApiError cfg res m code details).jsonBody =
      some (error cfg m code details) ∧
    (fastifyApiError cfg rep m code details).replyCode = some code ∧
    (fastifyApiError cfg rep m code details).sentBody =
      some (error cfg m code details) ∧
    (error (T := Value) cfg m code details).error.map ErrorInfo.code =
      some code :=
  ⟨rfl, rfl, rfl, rfl, rfl⟩

/-- C10: a supplied falsy details value (`0`, `""`, `false`, `null`) is
omitted even when `includeErrorDetails` is true, and `error.code` always
equals the supplied code whatever the configuration. -/
theorem error_falsy_details_omitted {T : Type} (cfg : ResponseConfig)
    (m : Option String) (code : Int) (v : Value)
    (details : Option Value) (hv : v.truthy = false) :
    ((error (T := T) cfg m code (some v)).error.map ErrorInfo.details =
      some none) ∧
    (error (T := T) cfg m code details).error.map ErrorInfo.code =
      some code := by
  refine ⟨?_, rfl⟩
  simp [error, truthyOpt, hv]

/-- Witness for `error_falsy_details_omitted` at `v = 0`, with details
switched on. -/
theorem error_falsy_details_omitted_witness :
    Value.truthy (Value.vNum 0) = false ∧
    ((error (T := Value) detailsOnConfig (some "x") 404
        (some (Value.vNum 0))).error.map ErrorInfo.details = some none ∧
      (error (T := Value) detailsOnConfig (some "x") 404
          (some (Value.vNum 0))).error.map ErrorInfo.code = some 404) :=
  ⟨rfl, error_falsy_details_omitted detailsOnConfig (some "x") 404
    (Value.vNum 0) (some (Value.vNum 0)) rfl⟩

/-- A one-object heap holding the default configuration at reference 0,
as after `new ResponseWrapper()`. -/
def testHeap : WrapperHeap :=
  ⟨⟨fun i => if i = 0 then some initialConfig else none, 1⟩, 0⟩

/-- A configuration a client might overwrite a snapshot with. -/
def mutatedCfg : ResponseConfig := ⟨"mutated", "mutated", true⟩

/-- C6: `configure` merges field by field (absent fields keep their
stored value, present fields take the new one), and `getConfig` hands
out a fresh copy: the returned reference differs from the stored one,
reads back the stored fields, and overwriting the returned object leaves
the stored configuration — and hence every later `getConfig` — unchanged. -/
theorem configure_merges_and_getConfig_copies :
    (∀ (cfg : ResponseConfig) (u : ConfigUpdate),
      (u.defaultSuccessMessage = none →
        (configure cfg u).defaultSuccessMessage =
          cfg.defaultSuccessMessage) ∧
      (∀ v, u.defaultSuccessMessage = some v →
        (configure cfg u).defaultSuccessMessage = v) ∧
      (u.defaultErrorMessage = none →
        (configure cfg u).defaultErrorMessage = cfg.defaultErrorMessage) ∧
      (∀ v, u.defaultErrorMessage = some v →
        (configure cfg u).defaultErrorMessage = v) ∧
      (u.includeErrorDetails = none →
        (configure cfg u).includeErrorDetails = cfg.includeErrorDetails) ∧
      (∀ v, u.includeErrorDetails = some v →
        (configure cfg u).includeErrorDetails = v)) ∧
    (∀ (s : WrapperHeap) (c cMut : ResponseConfig),
      readRef s.store s.configRef = some c →
      s.configRef < s.store.next →
      (getConfigRef s).2 ≠ s.configRef ∧
      readRef (getConfigRef s).1.store (getConfigRef s).2 = some c ∧
      readRef (writeRef (getConfigRef s).1.store (getConfigRef s).2 cMut)
        s.configRef = some c ∧
      readRef
        (getConfigRef ⟨writeRef (getConfigRef s).1.store
          (getConfigRef s).2 cMut, s.configRef⟩).1.store
        (getConfigRef ⟨writeRef (getConfigRef s).1.store
          (getConfigRef s).2 cMut, s.configRef⟩).2 = some c) := by
  constructor
  · intro cfg u
    refine ⟨fun h => ?_, fun v h => ?_, fun h => ?_, fun v h => ?_,
      fun h => ?_, fun v h => ?_⟩ <;> simp [configure, h]
  · intro s c cMut h hlt
    have hne : s.configRef ≠ s.store.next := Nat.ne_of_lt hlt
    have hne' : s.store.next ≠ s.store.next + 1 :=
      Nat.ne_of_lt (Nat.lt_succ_self _)
    have hcne : s.configRef ≠ s.store.next + 1 :=
      Nat.ne_of_lt (Nat.lt_succ_of_lt hlt)
    refine ⟨fun hr => hne hr.symm, ?_, ?_, ?_⟩
    · simp [getConfigRef, readRef, readRef] at h ⊢
      simp [h]
    · simp [getConfigRef, readRef, writeRef, if_neg hne] at h ⊢
      simp [h]
    · simp [getConfigRef, readRef, writeRef, if_neg hne, if_neg hne',
        if_neg hcne] at h ⊢
      simp [h]

/-- Witness for `configure_merges_and_getConfig_copies` on the
one-object heap: overwriting the snapshot reference leaves the stored
configuration readable unchanged. -/
theorem configure_merges_and_getConfig_copies_witness :
    readRef testHeap.store testHeap.configRef = some initialConfig ∧
    testHeap.configRef < testHeap.store.next ∧
    readRef
      (writeRef (getConfigRef testHeap).1.store (getConfigRef testHeap).2
        mutatedCfg) testHeap.configRef = some initialConfig :=
  ⟨rfl, Nat.zero_lt_one,
    (configure_merges_and_getConfig_copies.2 testHeap initialConfig
      mutatedCfg rfl Nat.zero_lt_one).2.2.1⟩

end ApiWrapper
